import Mathlib

/-!
Verification development for the txseq repository: a shallow embedding of
the pipeline declarations (pipeline_hisat.py, pipeline_salmon.py,
pipeline_ensembl.py, pipeline_scrnaseq.py) together with a model of the
workflow/task-graph engine contract the pipelines rely on (staleness
oracle, scheduler, checkpointed command runner), which lives in the
external cgatcore/ruffus framework and is therefore modelled from the
spec where a claim depends on it.

Filesystems are modelled as lists of paths (for existence questions) or
lists of path/content pairs (where file contents matter).
-/

namespace Txseq

/-- A filesystem snapshot for existence questions: the list of paths that
currently exist. -/
abbrev FS := List String

/-- Does a path exist in the filesystem snapshot? -/
def pathExists (fs : FS) (p : String) : Bool := fs.contains p

/-- Create a path if it does not already exist (touch / file creation). -/
def touchPath (fs : FS) (p : String) : FS :=
  if fs.contains p then fs else fs ++ [p]

/-- Delete a path (rm). -/
def removePath (fs : FS) (p : String) : FS := fs.filter (fun q => q != p)

theorem pathExists_iff (fs : FS) (p : String) :
    pathExists fs p = true ↔ p ∈ fs := by
  simp [pathExists, List.contains_iff_exists_mem_beq, beq_iff_eq]

theorem mem_touchPath_self (fs : FS) (p : String) : p ∈ touchPath fs p := by
  unfold touchPath
  split
  next h => exact (pathExists_iff fs p).mp h
  next h => simp

theorem mem_touchPath_of_mem (fs : FS) (p q : String) (h : q ∈ fs) :
    q ∈ touchPath fs p := by
  unfold touchPath
  split
  next => exact h
  next => exact List.mem_append_left _ h

/-! ## Paths computed by pipeline_hisat.py

The `novelSpliceSites` task is declared with
`@merge(firstPass, "hisat.dir/annotations/novel.splice.sites.sentinel")`
and writes its merged output to `sentinel.replace(".sentinel", ".txt")`.
The `secondPass` task consumes the novel splice sites at the literal path
`"hisat.dir/annotation/novel.splice.sites.txt"` (pipeline_hisat.py line
244). -/

/-- Replacement loop over character lists, fuelled so that it is
structurally recursive and kernel-evaluable. One unit of fuel is spent
per consumed character. -/
def replaceLoop (pat rep : List Char) : Nat → List Char → List Char
  | _, [] => []
  | 0, s => s
  | fuel + 1, c :: rest =>
    if List.isPrefixOf pat (c :: rest) ∧ pat ≠ [] then
      rep ++ replaceLoop pat rep fuel (List.drop (pat.length - 1) rest)
    else
      c :: replaceLoop pat rep fuel rest

/-- Python's `str.replace(pat, rep)` for a nonempty pattern: replaces
every non-overlapping occurrence of `pat`, scanning left to right. All
`.replace` calls in the pipeline sources use nonempty patterns. -/
def pyReplace (s pat rep : String) : String :=
  ⟨replaceLoop pat.data rep.data s.data.length s.data⟩

/-- Python's `str.lower()` for the ASCII parameter values the pipelines
compare against. -/
def pyLower (s : String) : String := ⟨s.data.map Char.toLower⟩

instance {e a : Type} [DecidableEq e] [DecidableEq a] : DecidableEq (Except e a) := fun x y =>
  match x, y with
  | .ok u, .ok v =>
    if h : u = v then .isTrue (by rw [h]) else .isFalse (by intro hh; cases hh; exact h rfl)
  | .error u, .error v =>
    if h : u = v then .isTrue (by rw [h]) else .isFalse (by intro hh; cases hh; exact h rfl)
  | .ok _, .error _ => .isFalse (by intro hh; cases hh)
  | .error _, .ok _ => .isFalse (by intro hh; cases hh)

/-- Sentinel path of the `novelSpliceSites` task, from the `@merge`
decorator in pipeline_hisat.py. -/
def novelSpliceSites_sentinel : String :=
  "hisat.dir/annotations/novel.splice.sites.sentinel"

/-- Output path of the `novelSpliceSites` task:
`out_path = sentinel.replace(".sentinel", ".txt")` in pipeline_hisat.py. -/
def novelSpliceSites_out_path : String :=
  pyReplace novelSpliceSites_sentinel ".sentinel" ".txt"

/-- Path at which `secondPass` reads the novel splice sites file:
the literal `novel_splice_sites = "hisat.dir/annotation/novel.splice.sites.txt"`
in pipeline_hisat.py. -/
def secondPass_novel_splice_sites : String :=
  "hisat.dir/annotation/novel.splice.sites.txt"

/-! ## Configuration validation in pipeline_scrnaseq.py

At module initialisation time (before ruffus ever dispatches a task body)
pipeline_scrnaseq.py validates three stringly-typed parameters:
endedness (`paired`), `strandedness` and `input`, raising `ValueError`
for unrecognised values. -/

/-- The construction-time errors raised by pipeline_scrnaseq.py. -/
inductive ConfigError where
  | endednessNotRecognised
  | strandNotRecognised
  | inputTypeNotRecognised
  deriving DecidableEq, Repr

/-- Strandedness values recognised by pipeline_scrnaseq.py. -/
inductive Strandedness where
  | unstranded
  | forward
  | reverse
  deriving DecidableEq, Repr

/-- Where `collectBAMs` takes its BAM files from in pipeline_scrnaseq.py. -/
inductive CollectBAMsSource where
  | fromHisatAlignments
  | fromBamDir
  deriving DecidableEq, Repr

/-- Endedness parsing from pipeline_scrnaseq.py lines 236-241:
`str(PARAMS["paired"]).lower()` tested against the two recognised sets,
otherwise `ValueError("Endedness not recognised")`. -/
def parsePaired (s : String) : Except ConfigError Bool :=
  if ["1", "true", "yes"].contains (pyLower s) then .ok true
  else if ["0", "false", "no"].contains (pyLower s) then .ok false
  else .error .endednessNotRecognised

/-- Strandedness parsing from pipeline_scrnaseq.py lines 244-246:
`str(PARAMS["strandedness"]).lower()` must be one of
none/forward/reverse, otherwise `ValueError("Strand not recognised")`. -/
def parseStrand (s : String) : Except ConfigError Strandedness :=
  if pyLower s = "none" then .ok .unstranded
  else if pyLower s = "forward" then .ok .forward
  else if pyLower s = "reverse" then .ok .reverse
  else .error .strandNotRecognised

/-- Input-type dispatch from pipeline_scrnaseq.py lines 406-413:
`PARAMS["input"]` must be `"fastq"` or `"bam"`, otherwise
`ValueError` (input type must be either fastq or bam). -/
def resolveInputType (s : String) : Except ConfigError CollectBAMsSource :=
  if s = "fastq" then .ok .fromHisatAlignments
  else if s = "bam" then .ok .fromBamDir
  else .error .inputTypeNotRecognised

/-- The validated configuration produced by module initialisation. -/
structure ScrnaseqConfig where
  paired : Bool
  strand : Strandedness
  bamSource : CollectBAMsSource
  deriving DecidableEq, Repr

/-- Module initialisation of pipeline_scrnaseq.py, in source order: the
endedness check (line 236), then the strandedness check (line 244), then
the `input` dispatch (line 406). All three run at import time; any
failure raises before ruffus is handed the task list. -/
def scrnaseqModuleInit (pairedParam strandednessParam inputParam : String) :
    Except ConfigError ScrnaseqConfig := do
  let p ← parsePaired pairedParam
  let s ← parseStrand strandednessParam
  let i ← resolveInputType inputParam
  .ok ⟨p, s, i⟩

/-- Task bodies are only ever invoked by `pipeline_run` on a module that
initialised successfully: on a construction error the invoked-body list
is empty. -/
def scrnaseqInvokedBodies (pairedParam strandednessParam inputParam : String)
    (taskNames : List String) : List String :=
  match scrnaseqModuleInit pairedParam strandednessParam inputParam with
  | .error _ => []
  | .ok _ => taskNames

/-! ## The workflow engine contract

The task-graph engine itself (dependency resolution, staleness decisions,
scheduling) lives in the external cgatcore/ruffus framework, not in this
repository; the definitions in this section are modelled from the spec
(sections 3, 4.2 and 4.3) and instantiated with the concrete jobs the
pipeline files declare. -/

/-- Modelled from the spec (section 3): a Job is the concrete
instantiation of a Rule, identified deterministically; here the job id is
its Completion Marker path, which the pipelines derive with the same
transform as the outputs. `upstream` lists the ids of the jobs whose
outputs it consumes. -/
structure Job where
  id : String
  upstream : List String
  outputs : List String
  marker : String
  deriving DecidableEq, Repr

/-- Modelled from the spec (section 4.2, Staleness Oracle): a job is
stale when its Completion Marker is missing, or any declared output is
missing regardless of the marker, or any upstream job was re-run in this
session (`rerun` collects the ids of the jobs the current run has already
re-executed). Otherwise it is not stale and is skipped. -/
def is_stale (fs : FS) (rerun : List String) (j : Job) : Bool :=
  !(fs.contains j.marker)
    || j.outputs.any (fun o => !(fs.contains o))
    || j.upstream.any (fun u => rerun.contains u)

/-- Modelled from the spec (sections 3 and 4.4): executing a job's task
body produces its declared outputs, and the engine then writes the
Completion Marker. -/
def execJob (j : Job) (fs : FS) : FS :=
  touchPath (j.outputs.foldl touchPath fs) j.marker

/-- Modelled from the spec (section 4.3): a sequential run of the DAG in
dependency order (`jobs` is topologically sorted). Each job is executed
when the Staleness Oracle says it is stale, and skipped without invoking
the task body otherwise; the returned list records, in order, the ids of
the jobs whose task bodies were invoked. -/
def runDAG (jobs : List Job) (fs : FS) : FS × List String :=
  jobs.foldl
    (fun st j =>
      if is_stale st.1 st.2 j then (execJob j st.1, st.2 ++ [j.id])
      else st)
    (fs, [])

/-- A filesystem state is complete for a job when its marker and every
declared output exist. -/
def jobComplete (fs : FS) (j : Job) : Prop :=
  j.marker ∈ fs ∧ ∀ o ∈ j.outputs, o ∈ fs

instance (fs : FS) (j : Job) : Decidable (jobComplete fs j) := by
  unfold jobComplete; infer_instance

/-! ## Concrete jobs declared by pipeline_hisat.py -/

/-- The `firstPass` job for one sample: sentinel
`hisat.dir/first.pass.dir/<sample>.sentinel` (from `hisat_first_pass_jobs`),
data output `<sample>.novel.splice.sites.txt.gz` (the gzipped
`novel_ss_outfile`). A root job with no upstream dependencies. -/
def hisatFirstPassJob (sample : String) : Job :=
  { id := "hisat.dir/first.pass.dir/" ++ sample ++ ".sentinel"
    upstream := []
    outputs := ["hisat.dir/first.pass.dir/" ++ sample ++ ".novel.splice.sites.txt.gz"]
    marker := "hisat.dir/first.pass.dir/" ++ sample ++ ".sentinel" }

/-- The `novelSpliceSites` merge job: consumes every `firstPass` job's
output (declared by `@merge(firstPass, ...)`), writes
`novelSpliceSites_out_path` and the sentinel. -/
def hisatNovelSpliceSitesJob (samples : List String) : Job :=
  { id := novelSpliceSites_sentinel
    upstream := samples.map (fun s => (hisatFirstPassJob s).id)
    outputs := [novelSpliceSites_out_path]
    marker := novelSpliceSites_sentinel }

/-- The `secondPass` job for one sample: declared downstream of
`novelSpliceSites` via `@follows(novelSpliceSites)`, sentinel
`hisat.dir/<sample>.sentinel`, data outputs the sorted BAM
(`sentinel.replace(".sentinel", ".bam")`) and its index. -/
def hisatSecondPassJob (sample : String) : Job :=
  { id := "hisat.dir/" ++ sample ++ ".sentinel"
    upstream := [novelSpliceSites_sentinel]
    outputs := [pyReplace ("hisat.dir/" ++ sample ++ ".sentinel") ".sentinel" ".bam",
                pyReplace ("hisat.dir/" ++ sample ++ ".sentinel") ".sentinel" ".bam" ++ ".bai"]
    marker := "hisat.dir/" ++ sample ++ ".sentinel" }

/-- The hisat pipeline DAG (quantitation part) for a list of samples, in
dependency order. -/
def hisatDag (samples : List String) : List Job :=
  samples.map hisatFirstPassJob
    ++ [hisatNovelSpliceSitesJob samples]
    ++ samples.map hisatSecondPassJob

/-! ## Concrete jobs declared by pipeline_salmon.py -/

/-- The `quant` job for one sample: sentinel
`salmon.dir/<sample>.sentinel` (from `salmon_jobs`), data outputs the
salmon results consumed by the loaders
(`x.replace(".sentinel", "/quant.sf")` and `"/quant.genes.sf"`). -/
def salmonQuantJob (sample : String) : Job :=
  { id := "salmon.dir/" ++ sample ++ ".sentinel"
    upstream := []
    outputs := [pyReplace ("salmon.dir/" ++ sample ++ ".sentinel") ".sentinel" "/quant.sf",
                pyReplace ("salmon.dir/" ++ sample ++ ".sentinel") ".sentinel" "/quant.genes.sf"]
    marker := "salmon.dir/" ++ sample ++ ".sentinel" }

/-- The `loadSalmonTranscriptQuant` merge job: declared by
`@merge(quant, "salmon.dir/salmon.transcripts.sentinel")`, so it consumes
the output of every `quant` job. -/
def loadSalmonTranscriptQuantJob (samples : List String) : Job :=
  { id := "salmon.dir/salmon.transcripts.sentinel"
    upstream := samples.map (fun s => (salmonQuantJob s).id)
    outputs := ["salmon.dir/salmon.transcripts.load"]
    marker := "salmon.dir/salmon.transcripts.sentinel" }

/-! ## Scheduler model

Modelled from the spec (section 4.3): the scheduler maintains per-job
states and dispatches jobs whose every upstream dependency is Succeeded
or Skipped, at most `maxParallel` concurrently. -/

/-- Modelled from the spec (section 3): the lifecycle states of a job.
Pending covers both Pending and Ready, which differ only in whether the
upstream dependencies are already done. -/
inductive JobState where
  | pending
  | running
  | succeeded
  | failed
  | skipped
  deriving DecidableEq, Repr

/-- A scheduler state assigns each job id a lifecycle state. -/
abbrev SchedState := String → JobState

/-- Every job of a DAG starts out Pending. -/
def initialSchedState : SchedState := fun _ => .pending

/-- A job's upstream dependencies are all done: Succeeded or Skipped. -/
def upstreamDone (st : SchedState) (j : Job) : Prop :=
  ∀ u ∈ j.upstream, st u = .succeeded ∨ st u = .skipped

instance (st : SchedState) (j : Job) : Decidable (upstreamDone st j) := by
  unfold upstreamDone; infer_instance

/-- Number of jobs of the DAG currently Running. -/
def runningCount (jobs : List Job) (st : SchedState) : Nat :=
  (jobs.filter (fun j => st j.id == .running)).length

/-- Modelled from the spec (section 4.3): one scheduler transition.
A job is dispatched (Pending to Running) only when every upstream job is
Succeeded or Skipped and fewer than `maxParallel` jobs are Running; a
non-stale job is moved Pending to Skipped under the same readiness
condition; a Running job finishes as Succeeded or Failed. -/
inductive SchedStep (jobs : List Job) (maxParallel : Nat) :
    SchedState → SchedState → Prop where
  | dispatch (st : SchedState) (j : Job) (hj : j ∈ jobs)
      (hp : st j.id = .pending) (hup : upstreamDone st j)
      (hcap : runningCount jobs st < maxParallel) :
      SchedStep jobs maxParallel st (Function.update st j.id .running)
  | skip (st : SchedState) (j : Job) (hj : j ∈ jobs)
      (hp : st j.id = .pending) (hup : upstreamDone st j) :
      SchedStep jobs maxParallel st (Function.update st j.id .skipped)
  | finishOk (st : SchedState) (j : Job) (hj : j ∈ jobs)
      (hr : st j.id = .running) :
      SchedStep jobs maxParallel st (Function.update st j.id .succeeded)
  | finishFail (st : SchedState) (j : Job) (hj : j ∈ jobs)
      (hr : st j.id = .running) :
      SchedStep jobs maxParallel st (Function.update st j.id .failed)

/-- Reachability of a scheduler state from the all-Pending initial
state. -/
def SchedReachable (jobs : List Job) (maxParallel : Nat) (st : SchedState) : Prop :=
  Relation.ReflTransGen (SchedStep jobs maxParallel) initialSchedState st

/-! ## Checkpointed command runner

Modelled from the spec (section 4.4): a task body's shell statement is an
ordered sequence of steps separated by `checkpoint;` markers; each step
runs only after every earlier step exited with status zero, and the first
non-zero exit aborts the remaining steps. The concrete step lists below
are the source statements of pipeline_scrnaseq.py split at their
`checkpoint;` markers. -/

/-- One shell step: the exit code it produces in the run being
considered, and its effect on the filesystem. -/
structure ShellStep where
  exitCode : Nat
  effect : FS → FS

/-- Result of running a multi-step statement. -/
inductive RunResult where
  | success
  | failure (stepIndex : Nat) (exitCode : Nat)
  deriving DecidableEq, Repr

/-- Modelled from the spec (section 4.4): run the steps in order starting
at index `idx`; a step's effect is applied when the step runs, and a
non-zero exit aborts the remaining steps, reporting which step failed. -/
def execStepsFrom (idx : Nat) : List ShellStep → FS → FS × RunResult
  | [], fs => (fs, .success)
  | s :: rest, fs =>
    let fs2 := s.effect fs
    if s.exitCode = 0 then execStepsFrom (idx + 1) rest fs2
    else (fs2, .failure idx s.exitCode)

/-- Run a whole multi-step statement from its first step. -/
def execSteps (steps : List ShellStep) (fs : FS) : FS × RunResult :=
  execStepsFrom 0 steps fs

/-- The combined filesystem effect of a list of steps. -/
def applyEffects (steps : List ShellStep) (fs : FS) : FS :=
  steps.foldl (fun acc s => s.effect acc) fs

/-- The steps of the `hisatAlignments` statement in pipeline_scrnaseq.py
(lines 375-391), split at the `checkpoint;` markers: (0) hisat2 writing
the temporary SAM `out_sam` and the log, (1) samtools view piped into
samtools sort producing the BAM, (2) samtools index, (3) `rm` of the
temporary SAM — the trailing cleanup step. Exit codes parameterise the
run under consideration. -/
def hisatAlignmentsSteps (out_sam outfile log : String)
    (hisatExit viewSortExit indexExit rmExit : Nat) : List ShellStep :=
  [ { exitCode := hisatExit, effect := fun fs => touchPath (touchPath fs out_sam) log },
    { exitCode := viewSortExit, effect := fun fs => touchPath fs outfile },
    { exitCode := indexExit, effect := fun fs => touchPath fs (outfile ++ ".bai") },
    { exitCode := rmExit, effect := fun fs => removePath fs out_sam } ]

/-- The steps of the `cuffQuant` statement in pipeline_scrnaseq.py
(lines 508-523), split at the `checkpoint;` markers: (0) zcat of the
geneset into the temporary GTF, (1) cuffquant writing the log/output,
(2) `rm` of the temporary GTF — the trailing cleanup step. -/
def cuffQuantSteps (gtf outfile : String)
    (zcatExit cuffquantExit rmExit : Nat) : List ShellStep :=
  [ { exitCode := zcatExit, effect := fun fs => touchPath fs gtf },
    { exitCode := cuffquantExit, effect := fun fs => touchPath fs outfile },
    { exitCode := rmExit, effect := fun fs => removePath fs gtf } ]

/-! ## Sentinel writing in the task bodies of pipeline_salmon.py and
pipeline_hisat.py

Every quantification task body there ends with `P.run(statement)`
followed by `IOTools.touch_file(sentinel)`. `P.run` raises when the
statement fails, so the sentinel write is reached exactly when the
statement succeeded; the files the statement actually produced are
whatever the external tool wrote (`produced`), and no code checks them
before the sentinel is written. -/

/-- The task body tail pattern of `quant` (pipeline_salmon.py lines
151-153) and `firstPass` (pipeline_hisat.py lines 182-183): run the
statement, and on success touch the sentinel. `statementOk` is whether
`P.run` succeeded and `produced` the files the statement's tools wrote.
Returns `.error` when `P.run` raised (the sentinel line never runs). -/
def runThenTouch (sentinel : String) (statementOk : Bool) (produced : List String)
    (fs : FS) : Except Unit FS :=
  if statementOk then .ok (touchPath (produced.foldl touchPath fs) sentinel)
  else .error ()

/-- Sentinel of the salmon `quant` task for one sample, from
`salmon_jobs` in pipeline_salmon.py. -/
def salmonQuantSentinel (sample : String) : String :=
  "salmon.dir/" ++ sample ++ ".sentinel"

/-- The primary declared data output of the salmon `quant` task for one
sample: the `quant.sf` file inside `out_path`, as consumed by
`loadSalmonTranscriptQuant`. -/
def salmonQuantSf (sample : String) : String :=
  pyReplace (salmonQuantSentinel sample) ".sentinel" "/quant.sf"

/-! ## The api task of pipeline_hisat.py

The task body loops `os.symlink` over the collected BAM files, linking
each `infile` at `os.path.join("api", infile)`, and touches
`hisat.dir/api.sentinel` only after the loop finished. `os.symlink`
raises `FileExistsError` when the link path already exists, which aborts
the loop; links created earlier in the loop stay on disk. -/

/-- The link path the hisat api task creates for an infile:
`os.path.join("api", infile)`. -/
def apiLinkPath (infile : String) : String := "api/" ++ infile

/-- The `os.symlink` loop of the api task: creates the link for each
infile in order; stops with failure at the first infile whose link path
already exists (FileExistsError). Returns the filesystem as left behind
and whether the loop completed. -/
def symlinkAll : List String → FS → FS × Bool
  | [], fs => (fs, true)
  | f :: rest, fs =>
    if fs.contains (apiLinkPath f) then (fs, false)
    else symlinkAll rest (fs ++ [apiLinkPath f])

/-- Sentinel of the hisat api task, from
`@files(glob.glob("hisat.dir/*.bam*"), "hisat.dir/api.sentinel")`. -/
def hisatApiSentinel : String := "hisat.dir/api.sentinel"

/-- The api task body of pipeline_hisat.py (lines 274-280): symlink every
infile into the api directory, then touch the sentinel; an exception in
the loop propagates, so the sentinel is touched only when every symlink
call succeeded. -/
def hisatApiTask (infiles : List String) (fs : FS) : FS × Bool :=
  let r := symlinkAll infiles fs
  if r.2 then (touchPath r.1 hisatApiSentinel, true) else r

/-! ## The api task of pipeline_ensembl.py

The task body (lines 245-290) first creates `api.dir` if missing, then
for each of five hard-coded artifacts checks the source file exists
(raising ValueError otherwise) and calls `os.symlink` to create a
fixed-name link under `api.dir`, and finally touches `api.sentinel`.
As in the hisat pipeline, `os.symlink` raises FileExistsError when the
link path already exists, aborting the body with the earlier links left
on disk and the sentinel unwritten. -/

/-- The five (source file, link path) pairs of the ensembl api task, in
source order: genome, transcript fasta, geneset GTF, transcript-to-gene
map, transcript info. -/
def ensemblApiLinks : List (String × String) :=
  [("ypar.masked.primary.assembly.fa.gz", "api.dir/txseq.genome.fa.gz"),
   ("filtered.transcripts.fa.gz", "api.dir/txseq.transcript.fa.gz"),
   ("filtered.geneset.gtf.gz", "api.dir/txseq.geneset.gtf.gz"),
   ("transcript.to.gene.map", "api.dir/txseq.transcript.to.gene.map"),
   ("transcript.info.tsv.gz", "api.dir/txseq.transcript.info.tsv.gz")]

/-- Sentinel of the ensembl api task, from `@files(None, "api.sentinel")`. -/
def ensemblApiSentinel : String := "api.sentinel"

/-- The check-and-symlink sequence of the ensembl api task: for each
pair, raise ValueError when the source file is missing, raise
FileExistsError when the link path already exists, otherwise create the
link. Returns the filesystem as left behind and whether the whole
sequence completed. -/
def ensemblApiLoop : List (String × String) → FS → FS × Bool
  | [], fs => (fs, true)
  | (src, link) :: rest, fs =>
    if !(fs.contains src) then (fs, false)
    else if fs.contains link then (fs, false)
    else ensemblApiLoop rest (fs ++ [link])

/-- The api task body of pipeline_ensembl.py (lines 245-290): create
`api.dir` if missing, run the check-and-symlink sequence, and touch the
sentinel only when every step succeeded (an exception propagates before
the `IOTools.touch_file` line). -/
def ensemblApiTask (fs : FS) : FS × Bool :=
  let r := ensemblApiLoop ensemblApiLinks (touchPath fs "api.dir")
  if r.2 then (touchPath r.1 ensemblApiSentinel, true) else r

/-! ## Single-end branches of the Picard QC tasks in
pipeline_scrnaseq.py

For file contents we use a filesystem of path/content pairs. -/

/-- A filesystem with contents: a list of (path, content) pairs with at
most one entry per path. -/
abbrev CFS := List (String × String)

/-- Write (or overwrite) a file with the given content. -/
def writeText (fs : CFS) (p c : String) : CFS :=
  (fs.filter (fun e => e.1 != p)) ++ [(p, c)]

/-- Read a file's content, if present. -/
def readText (fs : CFS) (p : String) : Option String :=
  (fs.find? (fun e => e.1 == p)).map (fun e => e.2)

/-- The placeholder text the single-end branches write. -/
def seMessage : String := "Not compatible with SE data"

/-- Declared output of `estimateLibraryComplexity` for one sample, from
its `@transform` decorator:
`qc.dir/library.complexity.dir/<sample>.library.complexity`. -/
def libraryComplexityOutput (sample : String) : String :=
  "qc.dir/library.complexity.dir/" ++ sample ++ ".library.complexity"

/-- First declared output of `insertSizeMetricsAndHistograms` for one
sample: the summary file. -/
def insertSizeSummaryOutput (sample : String) : String :=
  "qc.dir/insert.size.metrics.dir/" ++ sample ++ ".insert.size.metrics.summary"

/-- Second declared output of `insertSizeMetricsAndHistograms` for one
sample: the histogram file. -/
def insertSizeHistogramOutput (sample : String) : String :=
  "qc.dir/insert.size.metrics.dir/" ++ sample ++ ".insert.size.metrics.histogram"

/-- The `estimateLibraryComplexity` task body (pipeline_scrnaseq.py lines
728-756): when paired, Picard runs and its grepped report (content
`picardReport`, an opaque task payload) lands in the output file; when
single-end, the statement is just an echo of the placeholder text into
the declared output — Picard is not invoked and the task does not
fail. -/
def estimateLibraryComplexityTask (paired : Bool) (picardReport : String)
    (sample : String) (fs : CFS) : CFS :=
  if paired then writeText fs (libraryComplexityOutput sample) picardReport
  else writeText fs (libraryComplexityOutput sample) seMessage

/-- The `insertSizeMetricsAndHistograms` task body (pipeline_scrnaseq.py
lines 831-874): when paired, Picard's summary and histogram (opaque
contents) land in the two declared outputs; when single-end, the
statement echoes the placeholder text into the summary file and then,
after a checkpoint, into the histogram file. -/
def insertSizeMetricsTask (paired : Bool) (summaryReport histogramReport : String)
    (sample : String) (fs : CFS) : CFS :=
  if paired then
    writeText (writeText fs (insertSizeSummaryOutput sample) summaryReport)
      (insertSizeHistogramOutput sample) histogramReport
  else
    writeText (writeText fs (insertSizeSummaryOutput sample) seMessage)
      (insertSizeHistogramOutput sample) seMessage

/-- Did the task's run leave the sentinel in the filesystem it produced?
A raised exception (`.error`) means the sentinel line was never
reached. -/
def sentinelWrittenBy (r : Except Unit FS) (sentinel : String) : Bool :=
  match r with
  | .error _ => false
  | .ok fs2 => fs2.contains sentinel

/-- The filesystem left behind by a fully successful first run of a DAG:
every job's task body ran and produced its outputs and marker. -/
def runAllJobs (jobs : List Job) (fs : FS) : FS :=
  jobs.foldl (fun acc j => execJob j acc) fs

/-! ## Helper lemmas -/

theorem contains_eq_true_of_mem (fs : FS) (p : String) (h : p ∈ fs) :
    fs.contains p = true :=
  (pathExists_iff fs p).mpr h

theorem contains_eq_false_of_not_mem (fs : FS) (p : String) (h : p ∉ fs) :
    fs.contains p = false := by
  cases hc : fs.contains p
  · rfl
  · exact absurd ((pathExists_iff fs p).mp hc) h

theorem is_stale_false_of_complete (fs : FS) (j : Job) (h : jobComplete fs j) :
    is_stale fs [] j = false := by
  obtain ⟨hm, ho⟩ := h
  unfold is_stale
  have h2 : (j.outputs.any fun o => !List.contains fs o) = false := by
    rw [List.any_eq_false]
    intro o hoo
    rw [contains_eq_true_of_mem fs o (ho o hoo)]
    simp
  have h3 : (j.upstream.any fun u => List.contains ([] : List String) u) = false := by
    rw [List.any_eq_false]
    intro u _
    intro hc
    exact Bool.noConfusion hc
  rw [contains_eq_true_of_mem fs j.marker hm, h2, h3]
  rfl

theorem find?_writeText_ne (fs : CFS) (p q c : String) (h : q ≠ p) :
    (writeText fs p c).find? (fun e => e.1 == q) = fs.find? (fun e => e.1 == q) := by
  induction fs with
  | nil =>
    simp [writeText, List.find?, show (p == q) = false from beq_eq_false_iff_ne.mpr (fun hh => h hh.symm)]
  | cons a t ih =>
    by_cases hp : a.1 = p
    · have hq : (a.1 == q) = false := beq_eq_false_iff_ne.mpr (fun hh => h (hh.symm.trans hp))
      have : writeText (a :: t) p c = writeText t p c := by
        simp [writeText, List.filter, show (a.1 != p) = false by simp [hp]]
      rw [this, ih]
      simp [List.find?, hq]
    · have : writeText (a :: t) p c = a :: writeText t p c := by
        simp [writeText, List.filter, show (a.1 != p) = true by simp [hp]]
      rw [this]
      cases hq : (a.1 == q) <;> simp [List.find?, hq, ih]

theorem readText_writeText_self (fs : CFS) (p c : String) :
    readText (writeText fs p c) p = some c := by
  unfold readText writeText
  induction fs with
  | nil => simp [List.find?]
  | cons a t ih =>
    by_cases hp : a.1 = p
    · simp only [List.filter, show (a.1 != p) = false by simp [hp]]
      exact ih
    · simp only [List.filter, show (a.1 != p) = true by simp [hp], List.cons_append,
        List.find?, show (a.1 == p) = false from beq_eq_false_iff_ne.mpr hp]
      exact ih

theorem readText_writeText_ne (fs : CFS) (p q c : String) (h : q ≠ p) :
    readText (writeText fs p c) q = readText fs q := by
  unfold readText
  rw [find?_writeText_ne fs p q c h]

/-! ## Claim theorems -/

/-- C1: after a pipeline run in which all jobs succeeded (every job's
Completion Marker and declared outputs exist), immediately re-running the
same DAG invokes zero task bodies: the Staleness Oracle finds every job
not stale via its sentinel, and the run re-executes nothing and leaves
the filesystem unchanged. -/
theorem second_run_invokes_no_task_bodies (jobs : List Job) (fs : FS)
    (hcomplete : ∀ j ∈ jobs, jobComplete fs j) :
    (∀ j ∈ jobs, is_stale fs [] j = false) ∧ runDAG jobs fs = (fs, []) := by
  constructor
  · intro j hj
    exact is_stale_false_of_complete fs j (hcomplete j hj)
  · unfold runDAG
    induction jobs with
    | nil => rfl
    | cons j t ih =>
      have hj := hcomplete j (by simp)
      have ht : ∀ k ∈ t, jobComplete fs k := fun k hk => hcomplete k (by simp [hk])
      simp only [List.foldl, is_stale_false_of_complete fs j hj, Bool.false_eq_true, if_false]
      exact ih ht

/-- Witness for C1 on the hisat DAG with two samples: a complete first
run leaves every job complete,, and the second run performs no task-body
invocations. -/
theorem second_run_invokes_no_task_bodies_w :
    runDAG (hisatDag ["s1", "s2"]) (runAllJobs (hisatDag ["s1", "s2"]) [])
      = (runAllJobs (hisatDag ["s1", "s2"]) [], []) :=
  (second_run_invokes_no_task_bodies (hisatDag ["s1", "s2"])
    (runAllJobs (hisatDag ["s1", "s2"]) []) (by decide)).2

/-- C2: for a dependency chain of jobs A, B, C (B consumes A's output, C
consumes B's), deleting A's Completion Marker and re-running makes all
three task bodies re-execute, even though B's and C's own markers and
outputs are untouched (they are complete in the starting filesystem). -/
theorem chain_reruns_after_upstream_marker_deleted (A B C : Job) (fs : FS)
    (hAB : A.id ∈ B.upstream) (hBC : B.id ∈ C.upstream)
    (hAm : A.marker ∉ fs)
    (hBc : jobComplete fs B) (hCc : jobComplete fs C) :
    (runDAG [A, B, C] fs).2 = [A.id, B.id, C.id] := by
  have hA : is_stale fs [] A = true := by
    unfold is_stale
    rw [contains_eq_false_of_not_mem fs A.marker hAm]
    rfl
  have hB : is_stale (execJob A fs) [A.id] B = true := by
    unfold is_stale
    have hany : (B.upstream.any fun u => List.contains [A.id] u) = true :=
      List.any_eq_true.mpr ⟨A.id, hAB, by simp⟩
    rw [hany, Bool.or_true]
  have hC : is_stale (execJob B (execJob A fs)) [A.id, B.id] C = true := by
    unfold is_stale
    have hany : (C.upstream.any fun u => List.contains [A.id, B.id] u) = true :=
      List.any_eq_true.mpr ⟨B.id, hBC, by simp⟩
    rw [hany, Bool.or_true]
  simp [runDAG, List.foldl, hA, hB, hC]

/-- Witness for C2 on the hisat chain firstPass s1, novelSpliceSites,
secondPass s1: with everything complete except firstPass's deleted
sentinel, all three jobs re-execute. -/
theorem chain_reruns_after_upstream_marker_deleted_w :
    (runDAG [hisatFirstPassJob "s1", hisatNovelSpliceSitesJob ["s1"],
             hisatSecondPassJob "s1"]
        (removePath (runAllJobs (hisatDag ["s1"]) [])
          (hisatFirstPassJob "s1").marker)).2
      = [(hisatFirstPassJob "s1").id, (hisatNovelSpliceSitesJob ["s1"]).id,
         (hisatSecondPassJob "s1").id] :=
  chain_reruns_after_upstream_marker_deleted
    (hisatFirstPassJob "s1") (hisatNovelSpliceSitesJob ["s1"]) (hisatSecondPassJob "s1")
    (removePath (runAllJobs (hisatDag ["s1"]) []) (hisatFirstPassJob "s1").marker)
    (by decide) (by decide) (by decide) (by decide) (by decide)

/-- C3: a job whose Completion Marker exists while one of its declared
outputs is missing from disk is stale regardless of the marker, and the
next run re-executes it rather than skipping it. -/
theorem marker_without_output_is_stale (j : Job) (fs : FS) (rerun : List String)
    (o : String) (hm : j.marker ∈ fs) (ho : o ∈ j.outputs) (hmiss : o ∉ fs) :
    is_stale fs rerun j = true ∧ (runDAG [j] fs).2 = [j.id] := by
  have key : ∀ r : List String, is_stale fs r j = true := by
    intro r
    unfold is_stale
    have hany : (j.outputs.any fun oo => !List.contains fs oo) = true :=
      List.any_eq_true.mpr ⟨o, ho, by
        show (!List.contains fs o) = true
        rw [contains_eq_false_of_not_mem fs o hmiss]
        rfl⟩
    rw [hany, Bool.or_true, Bool.true_or]
  exact ⟨key rerun, by simp [runDAG, List.foldl, key []]⟩

/-- Witness for C3 on the salmon quant job for sample s1: the sentinel is
present but `salmon.dir/s1/quant.sf` has been deleted, so the job is
stale and re-runs. -/
theorem marker_without_output_is_stale_w :
    is_stale ["salmon.dir/s1.sentinel", "salmon.dir/s1/quant.genes.sf"] []
        (salmonQuantJob "s1") = true
    ∧ (runDAG [salmonQuantJob "s1"]
        ["salmon.dir/s1.sentinel", "salmon.dir/s1/quant.genes.sf"]).2
      = [(salmonQuantJob "s1").id] :=
  marker_without_output_is_stale (salmonQuantJob "s1")
    ["salmon.dir/s1.sentinel", "salmon.dir/s1/quant.genes.sf"] []
    (salmonQuantSf "s1") (by decide) (by decide) (by decide)

/-- C4 counterexample: in the source, `quant` touches its sentinel
immediately after `P.run` returns, without checking any declared data
output: a statement that succeeds while producing no files still gets
the Completion Marker, even though `salmon.dir/s1/quant.sf` does not
exist. -/
theorem quant_marker_written_despite_missing_output :
    runThenTouch (salmonQuantSentinel "s1") true [] []
      = .ok [salmonQuantSentinel "s1"]
    ∧ salmonQuantSf "s1" ∉ [salmonQuantSentinel "s1"] := by
  exact ⟨by decide, by decide⟩

/-- C4 (amended): the Completion Marker is written exactly when the task
body's statement returned success — independently of which files the
statement actually produced; declared data outputs are never verified
before the sentinel is touched. -/
theorem sentinel_tracks_statement_success (sentinel : String) (ok : Bool)
    (produced : List String) (fs : FS) :
    sentinelWrittenBy (runThenTouch sentinel ok produced fs) sentinel = ok := by
  cases ok
  · rfl
  · show (touchPath (produced.foldl touchPath fs) sentinel).contains sentinel = true
    exact contains_eq_true_of_mem _ _ (mem_touchPath_self _ _)

/-- C6: the code evaluates to two distinct paths: `novelSpliceSites`
writes its merged output under `hisat.dir/annotations/` while
`secondPass` reads it from `hisat.dir/annotation/` — the producer path
and the consumer path diverge. -/
theorem secondPass_path_diverges_from_novelSpliceSites_output :
    novelSpliceSites_out_path = "hisat.dir/annotations/novel.splice.sites.txt"
    ∧ novelSpliceSites_out_path ≠ secondPass_novel_splice_sites := by
  exact ⟨by decide, by decide⟩

/-- C7: any unrecognised value for endedness, strandedness or input type
makes module initialisation of pipeline_scrnaseq.py raise a ValueError,
and no task body is ever invoked for such a configuration. -/
theorem scrnaseq_bad_config_fails_fast (pp sp ip : String) (taskNames : List String)
    (hbad : parsePaired pp = .error .endednessNotRecognised
          ∨ parseStrand sp = .error .strandNotRecognised
          ∨ resolveInputType ip = .error .inputTypeNotRecognised) :
    (∃ e, scrnaseqModuleInit pp sp ip = .error e)
    ∧ scrnaseqInvokedBodies pp sp ip taskNames = [] := by
  have herr : ∃ e, scrnaseqModuleInit pp sp ip = .error e := by
    rcases hbad with h | h | h
    · exact ⟨.endednessNotRecognised, by unfold scrnaseqModuleInit; rw [h]; rfl⟩
    · cases hp : parsePaired pp with
      | error e => exact ⟨e, by unfold scrnaseqModuleInit; rw [hp]; rfl⟩
      | ok p =>
        exact ⟨.strandNotRecognised, by
          unfold scrnaseqModuleInit
          rw [hp]
          show (parseStrand sp).bind _ = _
          rw [h]
          rfl⟩
    · cases hp : parsePaired pp with
      | error e => exact ⟨e, by unfold scrnaseqModuleInit; rw [hp]; rfl⟩
      | ok p =>
        cases hs : parseStrand sp with
        | error e =>
          exact ⟨e, by
            unfold scrnaseqModuleInit
            rw [hp]
            show (parseStrand sp).bind _ = _
            rw [hs]
            rfl⟩
        | ok s =>
          exact ⟨.inputTypeNotRecognised, by
            unfold scrnaseqModuleInit
            rw [hp]
            show (parseStrand sp).bind _ = _
            rw [hs]
            show (resolveInputType ip).bind _ = _
            rw [h]
            rfl⟩
  obtain ⟨e, he⟩ := herr
  exact ⟨⟨e, he⟩, by unfold scrnaseqInvokedBodies; rw [he]⟩

/-- Witness for C7: the value `paired` for endedness is not
interpretable as true or false, so construction fails and no task body
runs. -/
theorem scrnaseq_bad_config_fails_fast_w :
    (∃ e, scrnaseqModuleInit "paired" "none" "fastq" = .error e)
    ∧ scrnaseqInvokedBodies "paired" "none" "fastq" ["hisatFirstPass"] = [] :=
  scrnaseq_bad_config_fails_fast "paired" "none" "fastq" ["hisatFirstPass"]
    (.inl (by decide))

theorem insertSize_outputs_distinct (sample : String) :
    insertSizeSummaryOutput sample ≠ insertSizeHistogramOutput sample := by
  intro h
  have hl := congrArg String.length h
  rw [insertSizeSummaryOutput, insertSizeHistogramOutput,
    String.length_append, String.length_append,
    String.length_append, String.length_append] at hl
  have e1 : (".insert.size.metrics.summary" : String).length = 28 := rfl
  have e2 : (".insert.size.metrics.histogram" : String).length = 30 := rfl
  rw [e1, e2] at hl
  omega

/-- C10: with single-end data (PAIRED false), both paired-end-only
Picard QC tasks still create every one of their declared output files,
each containing the placeholder text, instead of invoking Picard or
failing — so downstream merge tasks always find their inputs. -/
theorem se_qc_tasks_write_placeholder_outputs (sample : String) (fs fs2 : CFS)
    (picardReport summaryReport histogramReport : String) :
    readText (estimateLibraryComplexityTask false picardReport sample fs)
        (libraryComplexityOutput sample) = some seMessage
    ∧ readText (insertSizeMetricsTask false summaryReport histogramReport sample fs2)
        (insertSizeSummaryOutput sample) = some seMessage
    ∧ readText (insertSizeMetricsTask false summaryReport histogramReport sample fs2)
        (insertSizeHistogramOutput sample) = some seMessage := by
  refine ⟨?_, ?_, ?_⟩
  · show readText (writeText fs (libraryComplexityOutput sample) seMessage)
        (libraryComplexityOutput sample) = some seMessage
    exact readText_writeText_self fs _ seMessage
  · show readText
        (writeText (writeText fs2 (insertSizeSummaryOutput sample) seMessage)
          (insertSizeHistogramOutput sample) seMessage)
        (insertSizeSummaryOutput sample) = some seMessage
    rw [readText_writeText_ne _ _ _ _ (insertSize_outputs_distinct sample)]
    exact readText_writeText_self fs2 _ seMessage
  · show readText
        (writeText (writeText fs2 (insertSizeSummaryOutput sample) seMessage)
          (insertSizeHistogramOutput sample) seMessage)
        (insertSizeHistogramOutput sample) = some seMessage
    exact readText_writeText_self _ _ seMessage

theorem symlinkAll_aborts (pre : List String) (x : String) (post : List String)
    (fs : FS) (hx : apiLinkPath x ∈ fs)
    (hpre : ∀ p ∈ pre, apiLinkPath p ∉ fs)
    (hnd : (pre.map apiLinkPath).Nodup) :
    symlinkAll (pre ++ x :: post) fs = (fs ++ pre.map apiLinkPath, false) := by
  induction pre generalizing fs with
  | nil =>
    show symlinkAll (x :: post) fs = (fs ++ [], false)
    unfold symlinkAll
    rw [if_pos (contains_eq_true_of_mem fs _ hx)]
    rw [List.append_nil]
  | cons p ps ih =>
    have hpf : apiLinkPath p ∉ fs := hpre p (by simp)
    show symlinkAll (p :: (ps ++ x :: post)) fs = _
    unfold symlinkAll
    rw [if_neg (by rw [contains_eq_false_of_not_mem fs _ hpf]; simp)]
    have hnd2 : (ps.map apiLinkPath).Nodup := (List.nodup_cons.mp hnd).2
    have hp0 : apiLinkPath p ∉ ps.map apiLinkPath := (List.nodup_cons.mp hnd).1
    rw [ih (fs ++ [apiLinkPath p])
      (List.mem_append_left _ hx)
      (by
        intro q hq
        rw [List.mem_append]
        push_neg
        refine ⟨hpre q (by simp [hq]), ?_⟩
        intro hc
        rw [List.mem_singleton] at hc
        exact hp0 (hc ▸ List.mem_map_of_mem apiLinkPath hq))
      hnd2]
    rw [List.map_cons, List.append_assoc]
    rfl

theorem ensemblApiLoop_aborts (pre post : List (String × String))
    (src link : String) (fs : FS)
    (hsrc : ∀ e ∈ pre, e.1 ∈ fs) (hsrcx : src ∈ fs)
    (hpre : ∀ e ∈ pre, e.2 ∉ fs)
    (hnd : (pre.map (fun e => e.2)).Nodup)
    (hlink : link ∈ fs) :
    ensemblApiLoop (pre ++ (src, link) :: post) fs
      = (fs ++ pre.map (fun e => e.2), false) := by
  induction pre generalizing fs with
  | nil =>
    show ensemblApiLoop ((src, link) :: post) fs = (fs ++ [], false)
    unfold ensemblApiLoop
    rw [if_neg (by rw [contains_eq_true_of_mem fs src hsrcx]; simp)]
    rw [if_pos (contains_eq_true_of_mem fs link hlink)]
    rw [List.append_nil]
  | cons e ps ih =>
    obtain ⟨s0, l0⟩ := e
    have hs0 : s0 ∈ fs := hsrc (s0, l0) (by simp)
    have hl0 : l0 ∉ fs := hpre (s0, l0) (by simp)
    show ensemblApiLoop ((s0, l0) :: (ps ++ (src, link) :: post)) fs = _
    unfold ensemblApiLoop
    rw [if_neg (by rw [contains_eq_true_of_mem fs s0 hs0]; simp)]
    rw [if_neg (by rw [contains_eq_false_of_not_mem fs l0 hl0]; simp)]
    have hnd2 : (ps.map (fun e => e.2)).Nodup := (List.nodup_cons.mp hnd).2
    have hl0nd : l0 ∉ ps.map (fun e => e.2) := (List.nodup_cons.mp hnd).1
    rw [ih (fs ++ [l0])
      (fun e he => List.mem_append_left _ (hsrc e (by simp [he])))
      (List.mem_append_left _ hsrcx)
      (by
        intro e he
        rw [List.mem_append]
        push_neg
        refine ⟨hpre e (by simp [he]), ?_⟩
        intro hc
        rw [List.mem_singleton] at hc
        exact hl0nd (hc ▸ List.mem_map_of_mem (fun e => e.2) he))
      hnd2
      (List.mem_append_left _ hlink)]
    rw [List.map_cons, List.append_assoc]
    rfl

/-- C9: when the api task of the hisat pipeline or of the ensembl
pipeline runs while one of its symbolic links already exists, the
`os.symlink` call for that link raises FileExistsError: the task fails,
its sentinel is not written, and the links created before the failing
one remain on disk — the resulting filesystem is exactly the starting
one (plus, for ensembl, the freshly created `api.dir`) extended with the
earlier links, so neither api task is idempotent or atomic on error. -/
theorem api_tasks_fail_on_existing_link
    (pre : List String) (x : String) (post : List String) (fs : FS)
    (hx : apiLinkPath x ∈ fs)
    (hpre : ∀ p ∈ pre, apiLinkPath p ∉ fs)
    (hnd : (pre.map apiLinkPath).Nodup)
    (epre epost : List (String × String)) (esrc elink : String) (efs : FS)
    (heq : ensemblApiLinks = epre ++ (esrc, elink) :: epost)
    (hesrc : ∀ e ∈ ensemblApiLinks, e.1 ∈ efs)
    (hepre : ∀ e ∈ epre, e.2 ∉ touchPath efs "api.dir")
    (hend : (epre.map (fun e => e.2)).Nodup)
    (helink : elink ∈ touchPath efs "api.dir") :
    hisatApiTask (pre ++ x :: post) fs = (fs ++ pre.map apiLinkPath, false)
    ∧ ensemblApiTask efs
      = (touchPath efs "api.dir" ++ epre.map (fun e => e.2), false) := by
  constructor
  · unfold hisatApiTask
    rw [symlinkAll_aborts pre x post fs hx hpre hnd]
    rfl
  · unfold ensemblApiTask
    rw [heq]
    rw [ensemblApiLoop_aborts epre epost esrc elink (touchPath efs "api.dir")
      (fun e he => mem_touchPath_of_mem efs "api.dir" e.1
        (hesrc e (by rw [heq]; exact List.mem_append_left _ he)))
      (mem_touchPath_of_mem efs "api.dir" esrc
        (hesrc (esrc, elink) (by rw [heq]; simp)))
      hepre hend helink]
    rfl

/-- Witness for C9: the hisat api task over the BAM and index of sample
s1, with the index's link already present, creates the BAM's link and
then fails without touching its sentinel; the ensembl api task with all
five sources present but the transcript-fasta link already existing
creates the genome link, fails at the transcript link, and leaves its
sentinel unwritten. -/
theorem api_tasks_fail_on_existing_link_w :
    (hisatApiTask ["hisat.dir/s1.bam", "hisat.dir/s1.bam.bai"]
        ["api/hisat.dir/s1.bam.bai"]
      = (["api/hisat.dir/s1.bam.bai", "api/hisat.dir/s1.bam"], false)
    ∧ hisatApiSentinel ∉
        (hisatApiTask ["hisat.dir/s1.bam", "hisat.dir/s1.bam.bai"]
          ["api/hisat.dir/s1.bam.bai"]).1)
    ∧ (ensemblApiTask
        ["ypar.masked.primary.assembly.fa.gz", "filtered.transcripts.fa.gz",
         "filtered.geneset.gtf.gz", "transcript.to.gene.map",
         "transcript.info.tsv.gz", "api.dir/txseq.transcript.fa.gz"]
      = (["ypar.masked.primary.assembly.fa.gz", "filtered.transcripts.fa.gz",
          "filtered.geneset.gtf.gz", "transcript.to.gene.map",
          "transcript.info.tsv.gz", "api.dir/txseq.transcript.fa.gz",
          "api.dir", "api.dir/txseq.genome.fa.gz"], false)
    ∧ ensemblApiSentinel ∉
        (ensemblApiTask
          ["ypar.masked.primary.assembly.fa.gz", "filtered.transcripts.fa.gz",
           "filtered.geneset.gtf.gz", "transcript.to.gene.map",
           "transcript.info.tsv.gz", "api.dir/txseq.transcript.fa.gz"]).1) := by
  have h := api_tasks_fail_on_existing_link
    ["hisat.dir/s1.bam"] "hisat.dir/s1.bam.bai" [] ["api/hisat.dir/s1.bam.bai"]
    (by decide) (by decide) (by decide)
    [("ypar.masked.primary.assembly.fa.gz", "api.dir/txseq.genome.fa.gz")]
    [("filtered.geneset.gtf.gz", "api.dir/txseq.geneset.gtf.gz"),
     ("transcript.to.gene.map", "api.dir/txseq.transcript.to.gene.map"),
     ("transcript.info.tsv.gz", "api.dir/txseq.transcript.info.tsv.gz")]
    "filtered.transcripts.fa.gz" "api.dir/txseq.transcript.fa.gz"
    ["ypar.masked.primary.assembly.fa.gz", "filtered.transcripts.fa.gz",
     "filtered.geneset.gtf.gz", "transcript.to.gene.map",
     "transcript.info.tsv.gz", "api.dir/txseq.transcript.fa.gz"]
    (by decide) (by decide) (by decide) (by decide) (by decide)
  exact ⟨⟨h.1.trans (by decide), by decide⟩, ⟨h.2.trans (by decide), by decide⟩⟩

theorem execStepsFrom_append_fail (idx : Nat) (pre post : List ShellStep)
    (bad : ShellStep) (fs : FS)
    (hpre : ∀ s ∈ pre, s.exitCode = 0) (hbad : bad.exitCode ≠ 0) :
    execStepsFrom idx (pre ++ bad :: post) fs
      = (applyEffects (pre ++ [bad]) fs, .failure (idx + pre.length) bad.exitCode) := by
  induction pre generalizing idx fs with
  | nil =>
    show execStepsFrom idx (bad :: post) fs = _
    unfold execStepsFrom
    rw [if_neg hbad]
    rfl
  | cons s t ih =>
    have hs : s.exitCode = 0 := hpre s (by simp)
    have ht : ∀ u ∈ t, u.exitCode = 0 := fun u hu => hpre u (by simp [hu])
    show execStepsFrom idx (s :: (t ++ bad :: post)) fs = _
    unfold execStepsFrom
    rw [if_pos hs, ih (idx + 1) (s.effect fs) ht]
    rw [show idx + 1 + t.length = idx + (s :: t).length by
      rw [List.length_cons]; omega]
    rfl

/-- C5: in a multi-step checkpointed statement, each step runs only
after all preceding steps exited zero; the first non-zero exit aborts
the remaining steps and the job reports Failure tagged with that step's
index — in particular, the trailing cleanup step never runs, and the
filesystem keeps exactly the effects of the steps up to and including
the failing one. -/
theorem statement_aborts_at_first_failing_step (pre post : List ShellStep)
    (bad : ShellStep) (fs : FS)
    (hpre : ∀ s ∈ pre, s.exitCode = 0) (hbad : bad.exitCode ≠ 0) :
    execSteps (pre ++ bad :: post) fs
      = (applyEffects (pre ++ [bad]) fs, .failure pre.length bad.exitCode) := by
  have h := execStepsFrom_append_fail 0 pre post bad fs hpre hbad
  rw [execSteps, h, Nat.zero_add]

/-- Witness for C5 on the hisatAlignments statement: hisat2 succeeds
(creating the temporary SAM), the samtools view-and-sort step fails with
exit 1, so the index and `rm` steps never run: the temporary SAM is
leaked in the final filesystem and the result is Failure at step 1. -/
theorem statement_aborts_at_first_failing_step_w :
    execSteps (hisatAlignmentsSteps "tmp123.sam" "hisat.dir/s1.hisat.bam"
        "hisat.dir/s1.hisat.bam.log" 0 1 0 0) []
      = (["tmp123.sam", "hisat.dir/s1.hisat.bam.log", "hisat.dir/s1.hisat.bam"],
         .failure 1 1)
    ∧ "tmp123.sam" ∈
        (execSteps (hisatAlignmentsSteps "tmp123.sam" "hisat.dir/s1.hisat.bam"
          "hisat.dir/s1.hisat.bam.log" 0 1 0 0) []).1 := by
  have h := statement_aborts_at_first_failing_step
    [{ exitCode := 0,
       effect := fun fs => touchPath (touchPath fs "tmp123.sam") "hisat.dir/s1.hisat.bam.log" }]
    [{ exitCode := 0, effect := fun fs => touchPath fs ("hisat.dir/s1.hisat.bam" ++ ".bai") },
     { exitCode := 0, effect := fun fs => removePath fs "tmp123.sam" }]
    { exitCode := 1, effect := fun fs => touchPath fs "hisat.dir/s1.hisat.bam" }
    []
    (by intro s hs; rw [List.mem_singleton] at hs; rw [hs])
    (by decide)
  exact ⟨h.trans (by decide), by decide⟩

theorem upstreamDone_update_of_not_done (st : SchedState) (m : Job) (id0 : String)
    (v : JobState) (h : upstreamDone st m)
    (h0 : st id0 ≠ .succeeded) (h1 : st id0 ≠ .skipped) :
    upstreamDone (Function.update st id0 v) m := by
  intro u hu
  have hne : u ≠ id0 := by
    intro he
    rcases h u hu with hh | hh
    · exact h0 (he ▸ hh)
    · exact h1 (he ▸ hh)
  rw [Function.update_noteq hne]
  exact h u hu

theorem sched_step_preserves_wait (jobs : List Job) (maxParallel : Nat)
    (hids : ∀ j1 ∈ jobs, ∀ j2 ∈ jobs, j1.id = j2.id → j1 = j2)
    (m : Job) (hm : m ∈ jobs) (st1 st2 : SchedState)
    (hstep : SchedStep jobs maxParallel st1 st2)
    (ih : st1 m.id ≠ .pending → upstreamDone st1 m)
    (hdisp : st2 m.id ≠ .pending) :
    upstreamDone st2 m := by
  cases hstep with
  | dispatch j hj hp hup hcap =>
    by_cases he : j.id = m.id
    · have hjm : j = m := hids j hj m hm he
      subst hjm
      exact upstreamDone_update_of_not_done st1 j j.id _ hup
        (by rw [hp]; intro hc; exact JobState.noConfusion hc)
        (by rw [hp]; intro hc; exact JobState.noConfusion hc)
    · have hmne : st1 m.id ≠ .pending := by
        rwa [Function.update_noteq (fun hh => he hh.symm)] at hdisp
      exact upstreamDone_update_of_not_done st1 m j.id _ (ih hmne)
        (by rw [hp]; intro hc; exact JobState.noConfusion hc)
        (by rw [hp]; intro hc; exact JobState.noConfusion hc)
  | skip j hj hp hup =>
    by_cases he : j.id = m.id
    · have hjm : j = m := hids j hj m hm he
      subst hjm
      exact upstreamDone_update_of_not_done st1 j j.id _ hup
        (by rw [hp]; intro hc; exact JobState.noConfusion hc)
        (by rw [hp]; intro hc; exact JobState.noConfusion hc)
    · have hmne : st1 m.id ≠ .pending := by
        rwa [Function.update_noteq (fun hh => he hh.symm)] at hdisp
      exact upstreamDone_update_of_not_done st1 m j.id _ (ih hmne)
        (by rw [hp]; intro hc; exact JobState.noConfusion hc)
        (by rw [hp]; intro hc; exact JobState.noConfusion hc)
  | finishOk j hj hr =>
    have hmne : st1 m.id ≠ .pending := by
      by_cases he : j.id = m.id
      · rw [← he, hr]; intro hc; exact JobState.noConfusion hc
      · rwa [Function.update_noteq (fun hh => he hh.symm)] at hdisp
    exact upstreamDone_update_of_not_done st1 m j.id _ (ih hmne)
      (by rw [hr]; intro hc; exact JobState.noConfusion hc)
      (by rw [hr]; intro hc; exact JobState.noConfusion hc)
  | finishFail j hj hr =>
    have hmne : st1 m.id ≠ .pending := by
      by_cases he : j.id = m.id
      · rw [← he, hr]; intro hc; exact JobState.noConfusion hc
      · rwa [Function.update_noteq (fun hh => he hh.symm)] at hdisp
    exact upstreamDone_update_of_not_done st1 m j.id _ (ih hmne)
      (by rw [hr]; intro hc; exact JobState.noConfusion hc)
      (by rw [hr]; intro hc; exact JobState.noConfusion hc)

/-- C8: under any maxParallel of at least 1, a merge job whose upstream
dependencies are the jobs of a fan-out rule is never dispatched (and
never leaves Pending at all) before every one of those upstream jobs has
reached Succeeded or Skipped: in every reachable scheduler state in
which the merge job is no longer Pending, all of its upstream jobs are
done. -/
theorem merge_waits_for_upstream (jobs : List Job) (maxParallel : Nat)
    (hmp : 1 ≤ maxParallel)
    (hids : ∀ j1 ∈ jobs, ∀ j2 ∈ jobs, j1.id = j2.id → j1 = j2)
    (m : Job) (hm : m ∈ jobs) (st : SchedState)
    (hreach : SchedReachable jobs maxParallel st)
    (hdisp : st m.id ≠ .pending) :
    upstreamDone st m := by
  unfold SchedReachable at hreach
  revert hdisp
  induction hreach with
  | refl =>
    intro hdisp
    exact absurd rfl hdisp
  | tail hsteps hstep ih =>
    intro hdisp
    exact sched_step_preserves_wait jobs maxParallel hids m hm _ _ hstep ih hdisp

/-- The salmon quant fan-out plus transcript-quant merge DAG for three
samples. -/
def salmonC8Jobs : List Job :=
  ["s1", "s2", "s3"].map salmonQuantJob
    ++ [loadSalmonTranscriptQuantJob ["s1", "s2", "s3"]]

/-- Scheduler trace states for the C8 witness: serially run the three
quant jobs to completion, then dispatch the merge job. -/
def c8State1 : SchedState :=
  Function.update initialSchedState (salmonQuantJob "s1").id .running

def c8State2 : SchedState :=
  Function.update c8State1 (salmonQuantJob "s1").id .succeeded

def c8State3 : SchedState :=
  Function.update c8State2 (salmonQuantJob "s2").id .running

def c8State4 : SchedState :=
  Function.update c8State3 (salmonQuantJob "s2").id .succeeded

def c8State5 : SchedState :=
  Function.update c8State4 (salmonQuantJob "s3").id .running

def c8State6 : SchedState :=
  Function.update c8State5 (salmonQuantJob "s3").id .succeeded

def c8State7 : SchedState :=
  Function.update c8State6 (loadSalmonTranscriptQuantJob ["s1", "s2", "s3"]).id .running

/-- Witness for C8: in the reachable state where the merge job
loadSalmonTranscriptQuant has just been dispatched with maxParallel 1,
every quant job is already Succeeded. -/
theorem merge_waits_for_upstream_w :
    upstreamDone c8State7 (loadSalmonTranscriptQuantJob ["s1", "s2", "s3"]) := by
  refine merge_waits_for_upstream salmonC8Jobs 1 (by decide) (by decide)
    (loadSalmonTranscriptQuantJob ["s1", "s2", "s3"]) (by decide) c8State7 ?_ (by decide)
  unfold SchedReachable
  refine Relation.ReflTransGen.head
    (SchedStep.dispatch initialSchedState (salmonQuantJob "s1")
      (by decide) (by decide) (by decide) (by decide)) ?_
  refine Relation.ReflTransGen.head
    (SchedStep.finishOk c8State1 (salmonQuantJob "s1") (by decide) (by decide)) ?_
  refine Relation.ReflTransGen.head
    (SchedStep.dispatch c8State2 (salmonQuantJob "s2")
      (by decide) (by decide) (by decide) (by decide)) ?_
  refine Relation.ReflTransGen.head
    (SchedStep.finishOk c8State3 (salmonQuantJob "s2") (by decide) (by decide)) ?_
  refine Relation.ReflTransGen.head
    (SchedStep.dispatch c8State4 (salmonQuantJob "s3")
      (by decide) (by decide) (by decide) (by decide)) ?_
  refine Relation.ReflTransGen.head
    (SchedStep.finishOk c8State5 (salmonQuantJob "s3") (by decide) (by decide)) ?_
  exact Relation.ReflTransGen.single
    (SchedStep.dispatch c8State6 (loadSalmonTranscriptQuantJob ["s1", "s2", "s3"])
      (by decide) (by decide) (by decide) (by decide))

end Txseq
